import Mathlib

/-!
Verification of the pytvdbapi data-model and error-handling specification
against a shallow embedding of the repository's code.

`error.py` and `loader.py` are embedded directly from the source.  The
entity/façade module (`api.py`) is not present in the sources, only its
tests and the specification; those parts are modelled from the spec and
are marked as such in their doc comments.
-/

/- ===== Embedding of src/pytvdbapi/error.py ===== -/

/-- The Python classes involved in the error hierarchy of `error.py`,
plus the two builtin classes they inherit from. -/
inductive PyClass where
  | Exception
  | AttributeError
  | PytvdbapiError
  | BadData
  | ConnectionError
  | TVDBAttributeError
  | TVDBIndexError
  | TVDBValueError
  | TVDBIdError
  | TVDBNotFoundError
deriving DecidableEq, Repr

/-- The direct base classes of each class, transcribed from the `class`
statements of `error.py` (lines 36-91). -/
def bases : PyClass → List PyClass
  | .Exception => []
  | .AttributeError => [.Exception]
  | .PytvdbapiError => [.Exception]
  | .BadData => [.PytvdbapiError]
  | .ConnectionError => [.PytvdbapiError]
  | .TVDBAttributeError => [.PytvdbapiError, .AttributeError]
  | .TVDBIndexError => [.PytvdbapiError]
  | .TVDBValueError => [.PytvdbapiError]
  | .TVDBIdError => [.PytvdbapiError]
  | .TVDBNotFoundError => [.PytvdbapiError]

/-- Fuel-bounded reflexive-transitive closure of the base-class relation. -/
def issubclassAux : Nat → PyClass → PyClass → Bool
  | 0, _, _ => false
  | fuel + 1, c, d => c == d || (bases c).any (fun b => issubclassAux fuel b d)

/-- Python `issubclass`: the hierarchy has depth at most 3, so fuel 8 is exact. -/
def issubclass (c d : PyClass) : Bool :=
  issubclassAux 8 c d

/-- A `try/except handler` clause catches a raised exception exactly when the
raised class is a subclass of the handler class. -/
def catches (handler raised : PyClass) : Bool :=
  issubclass raised handler

/-- The error kinds that `error.py` exports in `__all__` besides the base
kind itself: every error the library raises is one of these. -/
def libraryErrorClasses : List PyClass :=
  [.BadData, .ConnectionError, .TVDBAttributeError, .TVDBIndexError,
   .TVDBValueError, .TVDBIdError, .TVDBNotFoundError]

/- ===== Values and errors carried by the data model ===== -/

/-- Typed attribute values per the XMLMapper schema of the spec
(string, int, float, date, list-of-string); floats are modelled as an
integer pair since no claim depends on float arithmetic. -/
inductive Value where
  | vStr (s : String)
  | vInt (n : Int)
  | vFloat (whole frac : Int)
  | vDate (y m d : Nat)
  | vList (xs : List String)
deriving DecidableEq, Repr

/-- The errors raised by the library, as data: each constructor corresponds
to one class of `error.py` and carries the offending value its message names. -/
inductive TVDBError where
  | attributeError (kind name : String)
  | indexError (offending : String)
  | valueError (offending : String)
  | idError (offending : String)
  | connectionError (url : String)
  | notFoundError (what : String)
  | badData
deriving DecidableEq, Repr

/-- The Python class of each raised error. -/
def TVDBError.pyClass : TVDBError → PyClass
  | .attributeError _ _ => .TVDBAttributeError
  | .indexError _ => .TVDBIndexError
  | .valueError _ => .TVDBValueError
  | .idError _ => .TVDBIdError
  | .connectionError _ => .ConnectionError
  | .notFoundError _ => .TVDBNotFoundError
  | .badData => .BadData

/- ===== AttributeBag (modelled from the spec) ===== -/

/-- Python's `str.lower()` on the character list of the string (field names
of the service schema are ASCII). -/
def lowerString (s : String) : String :=
  String.mk (s.data.map Char.toLower)

/-- The key under which a name is looked up: lower-cased when the bag is
case-insensitive, the name itself otherwise. -/
def normKey (ignoreCase : Bool) (name : String) : String :=
  if ignoreCase then lowerString name else name

/-- Modelled from the spec: `api.py` is absent from the sources; §4.1
describes AttributeBag as a canonical-name → value map with an
`ignore_case` flag, at most one value per canonical name, and
last-write-wins on case collisions. -/
structure AttributeBag where
  ignoreCase : Bool
  entries : List (String × Value)
deriving DecidableEq, Repr

/-- Modelled from the spec: `set` records the canonical name, replacing any
entry whose lookup key collides (last-write-wins). -/
def AttributeBag.set (bag : AttributeBag) (name : String) (v : Value) : AttributeBag :=
  { bag with
    entries := (name, v) ::
      bag.entries.filter
        (fun e => normKey bag.ignoreCase e.1 != normKey bag.ignoreCase name) }

/-- Modelled from the spec: `get` normalizes the lookup key according to the
`ignore_case` flag and returns the stored value, if any. -/
def AttributeBag.get (bag : AttributeBag) (name : String) : Option Value :=
  (bag.entries.find?
    (fun e => normKey bag.ignoreCase e.1 == normKey bag.ignoreCase name)).map Prod.snd

/-- Modelled from the spec: `get_attribute(name)` checks the entity's own
AttributeBag and on a miss fails with the typed attribute error naming the
entity kind and the requested name (§4.3). -/
def AttributeBag.get_attribute (bag : AttributeBag) (kind : String) (name : String) :
    Except TVDBError Value :=
  match bag.get name with
  | some v => Except.ok v
  | none => Except.error (TVDBError.attributeError kind name)

/-- Modelled from the spec: merging a document's fields into an existing bag,
new/changed keys win, unrelated previously-set keys persist (§4.3). -/
def mergeAttrs (bag : AttributeBag) (attrs : List (String × Value)) : AttributeBag :=
  attrs.foldl (fun b kv => b.set kv.1 kv.2) bag

/-- Modelled from the spec: the bag an entity is given when first built from
a document's field list. -/
def mkBag (ignoreCase : Bool) (attrs : List (String × Value)) : AttributeBag :=
  mergeAttrs { ignoreCase := ignoreCase, entries := [] } attrs

/- ===== Entities: Episode, Season, Show (modelled from the spec) ===== -/

/-- Modelled from the spec: an Episode is a leaf entity with an episode
number within its Season and an AttributeBag of hydrated fields (§3). -/
structure Episode where
  episodeNumber : Nat
  bag : AttributeBag
deriving DecidableEq, Repr

/-- Modelled from the spec: a Season is identified by an integer season
number (0 = specials), holds an AttributeBag and an ordered collection of
Episodes (§3). -/
structure Season where
  seasonNumber : Nat
  bag : AttributeBag
  episodes : List Episode
deriving DecidableEq, Repr

/-- Modelled from the spec: a Show has a stable numeric id, an AttributeBag
and an ordered collection of Seasons (§3). -/
structure Show where
  id : Int
  bag : AttributeBag
  seasons : List Season
deriving DecidableEq, Repr

def Show.get_attribute (S : Show) (name : String) : Except TVDBError Value :=
  AttributeBag.get_attribute S.bag "Show" name

def Season.get_attribute (s : Season) (name : String) : Except TVDBError Value :=
  AttributeBag.get_attribute s.bag "Season" name

def Episode.get_attribute (e : Episode) (name : String) : Except TVDBError Value :=
  AttributeBag.get_attribute e.bag "Episode" name

/-- Modelled from the spec: hydration of one field of a Show's bag. -/
def Show.hydrate (S : Show) (name : String) (v : Value) : Show :=
  { S with bag := S.bag.set name v }

/-- Modelled from the spec: hydration of one field of a Season's bag. -/
def Season.hydrate (s : Season) (name : String) (v : Value) : Season :=
  { s with bag := s.bag.set name v }

/-- Modelled from the spec: hydration of one field of an Episode's bag. -/
def Episode.hydrate (e : Episode) (name : String) (v : Value) : Episode :=
  { e with bag := e.bag.set name v }

/-- One `<Episode>` element of the "series all data" document: its season
number, its episode number, and its mapped fields. -/
structure EpisodeRec where
  seasonNumber : Nat
  episodeNumber : Nat
  attrs : List (String × Value)
deriving DecidableEq, Repr

/-- Modelled from the spec: inserting an Episode into a Season's ordered
collection keeps episodes ascending by episode number and overwrites an
existing episode with the same number, never duplicating it (§3, §4.3). -/
def insertEpisode (ep : Episode) : List Episode → List Episode
  | [] => [ep]
  | e :: rest =>
    if ep.episodeNumber < e.episodeNumber then ep :: e :: rest
    else if ep.episodeNumber = e.episodeNumber then ep :: rest
    else e :: insertEpisode ep rest

/-- Modelled from the spec: inserting an episode of season `sn` into a
Show's ordered Season collection, creating the Season (with an empty bag)
when absent, keeping seasons ascending by season number and never
duplicating a season number. -/
def insertIntoSeasons (ic : Bool) (sn : Nat) (ep : Episode) :
    List Season → List Season
  | [] => [{ seasonNumber := sn, bag := { ignoreCase := ic, entries := [] }, episodes := [ep] }]
  | s :: rest =>
    if sn < s.seasonNumber then
      { seasonNumber := sn, bag := { ignoreCase := ic, entries := [] }, episodes := [ep] } :: s :: rest
    else if sn = s.seasonNumber then
      { s with episodes := insertEpisode ep s.episodes } :: rest
    else
      s :: insertIntoSeasons ic sn ep rest

/-- Modelled from the spec: building the Season→Episode tree from the
episode elements of the full "series all data" document, in arrival order. -/
def buildTree (ic : Bool) (doc : List EpisodeRec) : List Season :=
  doc.foldl
    (fun acc r =>
      insertIntoSeasons ic r.seasonNumber
        { episodeNumber := r.episodeNumber, bag := mkBag ic r.attrs } acc)
    []

/-- Modelled from the spec: `Show.update()` re-maps the fetched document's
show-level fields into the existing bag (new keys win, old unrelated keys
persist) and (re)builds the Season/Episode tree from the same document,
replacing any previous tree (§4.3). -/
def Show.update (S : Show) (attrs : List (String × Value)) (doc : List EpisodeRec) : Show :=
  { S with
    bag := mergeAttrs S.bag attrs,
    seasons := buildTree S.bag.ignoreCase doc }

/- ===== Indexing (modelled from the spec) ===== -/

/-- A Python value used as a subscript: an integer or a string. -/
inductive PyKey where
  | int (i : Int)
  | str (s : String)
deriving DecidableEq, Repr

/-- Printable form of a subscript, used in the index-error message. -/
def PyKey.describe : PyKey → String
  | .int i => toString i
  | .str s => s

/-- Modelled from the spec: `Show[i]` validates the index against the
ordered Season collection; a non-integer or out-of-range index fails with
the typed index error and is never clamped or defaulted (§3, §4.3). -/
def Show.getitem (S : Show) (k : PyKey) : Except TVDBError Season :=
  match k with
  | .str s => Except.error (TVDBError.indexError s)
  | .int i =>
    if h : 0 ≤ i ∧ i.toNat < S.seasons.length then
      Except.ok (S.seasons.get ⟨i.toNat, h.2⟩)
    else
      Except.error (TVDBError.indexError (toString i))

/-- Modelled from the spec: `Season[i]` with the same validation against the
ordered Episode collection. -/
def Season.getitem (s : Season) (k : PyKey) : Except TVDBError Episode :=
  match k with
  | .str t => Except.error (TVDBError.indexError t)
  | .int i =>
    if h : 0 ≤ i ∧ i.toNat < s.episodes.length then
      Except.ok (s.episodes.get ⟨i.toNat, h.2⟩)
    else
      Except.error (TVDBError.indexError (toString i))

/-- Modelled from the spec: a SearchResult is an ordered, immutable sequence
of Shows together with the original search string, case preserved (§3). -/
structure SearchResult where
  search : String
  shows : List Show
deriving DecidableEq, Repr

/-- Modelled from the spec: `SearchResult[i]` with positional validation. -/
def SearchResult.getitem (r : SearchResult) (k : PyKey) : Except TVDBError Show :=
  match k with
  | .str t => Except.error (TVDBError.indexError t)
  | .int i =>
    if h : 0 ≤ i ∧ i.toNat < r.shows.length then
      Except.ok (r.shows.get ⟨i.toNat, h.2⟩)
    else
      Except.error (TVDBError.indexError (toString i))

/-- Whether an operation failed with the typed index error. -/
def isIndexError {α : Type} : Except TVDBError α → Bool
  | .error (.indexError _) => true
  | _ => false

/- ===== TVDB façade (modelled from the spec) ===== -/

/-- Modelled from the spec: the fixed recognized set of two-letter language
codes supported by the remote service (§4.4, §6); contains `en`, `de`, `zh`
as exercised by the tests and not `lu`, `foo` or the empty string. -/
def recognizedLanguages : List String :=
  ["cs", "da", "de", "el", "en", "es", "fi", "fr", "he", "hr", "hu", "it",
   "ja", "ko", "nl", "no", "pl", "pt", "ru", "sl", "sv", "tr", "zh"]

/-- Modelled from the spec: the façade object, holding the caller's api key
and the case-sensitivity mode its entities are built with. -/
structure TVDB where
  apiKey : String
  ignoreCase : Bool
deriving DecidableEq, Repr

/-- One parsed `<Series>` element of a search or series document. -/
structure SeriesRecord where
  seriesid : Int
  attrs : List (String × Value)
deriving DecidableEq, Repr

def mkSearchUrl (apiKey name lang : String) : String :=
  "http://www.thetvdb.com/api/GetSeries.php?seriesname=" ++ name ++
    "&language=" ++ lang ++ "&apikey=" ++ apiKey

def mkSeriesUrl (apiKey lang : String) (sid : Int) : String :=
  "http://www.thetvdb.com/api/" ++ apiKey ++ "/series/" ++ toString sid ++
    "/" ++ lang ++ ".xml"

def mkEpisodeUrl (apiKey lang : String) (eid : Int) : String :=
  "http://www.thetvdb.com/api/" ++ apiKey ++ "/episodes/" ++ toString eid ++
    "/" ++ lang ++ ".xml"

/-- Modelled from the spec: a Show built from one `<Series>` element, at
search-level hydration with no Seasons yet (§3 Lifecycle). -/
def mkShowFromRecord (api : TVDB) (r : SeriesRecord) : Show :=
  { id := r.seriesid, bag := mkBag api.ignoreCase r.attrs, seasons := [] }

/-- Modelled from the spec: `search(name, language)` validates the language
against the recognized set before any network access — an invalid code
fails with the typed value error naming it and fetches nothing — and
otherwise issues one request and builds one Show per `<Series>` element in
document order (§4.4).  The second component lists the URLs fetched. -/
def TVDB.search (api : TVDB) (name lang : String)
    (net : String → List SeriesRecord) :
    Except TVDBError SearchResult × List String :=
  if recognizedLanguages.contains lang then
    let url := mkSearchUrl api.apiKey name lang
    (Except.ok { search := name, shows := (net url).map (mkShowFromRecord api) }, [url])
  else
    (Except.error (TVDBError.valueError lang), [])

/-- Modelled from the spec: a show or episode id must be coercible to a
positive integer (§4.4). -/
def pyKeyToId : PyKey → Option Int
  | .int i => if 0 < i then some i else none
  | .str s =>
    match s.toInt? with
    | some i => if 0 < i then some i else none
    | none => none

/-- Modelled from the spec: `get(show_id, language)` validates the language
first (value error, nothing fetched), then the id (id error for
non-numeric, non-positive, and not-found alike), then fetches and builds a
single search-level Show (§4.4). -/
def TVDB.get (api : TVDB) (showId : PyKey) (lang : String)
    (net : String → List SeriesRecord) :
    Except TVDBError Show × List String :=
  if recognizedLanguages.contains lang then
    match pyKeyToId showId with
    | none => (Except.error (TVDBError.idError showId.describe), [])
    | some sid =>
      let url := mkSeriesUrl api.apiKey lang sid
      match net url with
      | [] => (Except.error (TVDBError.idError (toString sid)), [url])
      | r :: _ => (Except.ok (mkShowFromRecord api r), [url])
  else
    (Except.error (TVDBError.valueError lang), [])

/-- Modelled from the spec: `get_series` is a pure alias of `get` (§4.4). -/
def TVDB.get_series (api : TVDB) (showId : PyKey) (lang : String)
    (net : String → List SeriesRecord) :
    Except TVDBError Show × List String :=
  api.get showId lang net

/-- Modelled from the spec: `get_episode(episode_id, language)` with the
same validation pattern as `get`, returning an Episode (§4.4). -/
def TVDB.get_episode (api : TVDB) (epId : PyKey) (lang : String)
    (net : String → List EpisodeRec) :
    Except TVDBError Episode × List String :=
  if recognizedLanguages.contains lang then
    match pyKeyToId epId with
    | none => (Except.error (TVDBError.idError epId.describe), [])
    | some eid =>
      let url := mkEpisodeUrl api.apiKey lang eid
      match net url with
      | [] => (Except.error (TVDBError.idError (toString eid)), [url])
      | r :: _ =>
        (Except.ok { episodeNumber := r.episodeNumber, bag := mkBag api.ignoreCase r.attrs }, [url])
  else
    (Except.error (TVDBError.valueError lang), [])

/- ===== Embedding of src/pytvdbapi/loader.py ===== -/

/-- The content httplib2 hands back: either a `bytes` payload (identified
here by the string its utf-8 decoding yields) or an already-decoded `str`. -/
inductive HttpContent where
  | rawBytes (utf8 : String)
  | text (s : String)
deriving DecidableEq, Repr

/-- `content.decode("utf-8")` on a bytes payload; the identity on `str`. -/
def HttpContent.asText : HttpContent → String
  | .rawBytes s => s
  | .text s => s

/-- The outcome of `self.http.request(url, headers)`: content, one of the
two exceptions the `except` clause of `Loader.load` catches, or any other
exception, which `load` does not catch. -/
inductive HttpOutcome where
  | ok (content : HttpContent)
  | relativeURIError
  | serverNotFoundError
  | raised (e : String)
deriving DecidableEq, Repr

/-- The result of `Loader.load`: a returned value, a raised
`error.ConnectionError`, or an uncaught exception propagating through. -/
inductive LoadResult where
  | ok (content : HttpContent)
  | connectionError (msg : String)
  | uncaught (e : String)
deriving DecidableEq, Repr

/-- The headers `Loader.load` sends: `cache-control: no-cache` exactly when
the cache is bypassed (loader.py lines 47-50). -/
def loadHeaders (cache : Bool) : List (String × String) :=
  if cache then [] else [("cache-control", "no-cache")]

/-- Embedding of `Loader.load` (loader.py lines 35-61): requests the URL
with the cache headers; on `RelativeURIError` or `ServerNotFoundError`
raises `error.ConnectionError` naming the URL; on success returns the
content unchanged when it already is a `str`, and its utf-8 decoding — a
`str`, not bytes — when it is a bytes payload. -/
def Loader.load (request : String → List (String × String) → HttpOutcome)
    (url : String) (cache : Bool) : LoadResult :=
  match request url (loadHeaders cache) with
  | .ok (.text s) => .ok (.text s)
  | .ok (.rawBytes s) => .ok (.text s)
  | .relativeURIError => .connectionError ("Unable to connect to " ++ url)
  | .serverNotFoundError => .connectionError ("Unable to connect to " ++ url)
  | .raised e => .uncaught e

/-- Whether a load result is a returned bytes payload. -/
def LoadResult.returnsBytes : LoadResult → Bool
  | .ok (.rawBytes _) => true
  | _ => false

/- ===== Persist / restore snapshots (modelled from the spec) ===== -/

/-- Modelled from the spec: the persisted form of an Episode — name/value
pairs plus the `ignore_case` flag (§4.1, §6, §9). -/
structure EpisodeSnap where
  number : Nat
  ignoreCase : Bool
  attrs : List (String × Value)
deriving DecidableEq, Repr

/-- Modelled from the spec: the persisted form of a Season — its own
name/value pairs plus the persisted episodes, in tree shape. -/
structure SeasonSnap where
  number : Nat
  ignoreCase : Bool
  attrs : List (String × Value)
  episodes : List EpisodeSnap
deriving DecidableEq, Repr

/-- Modelled from the spec: the persisted form of a Show. -/
structure ShowSnap where
  id : Int
  ignoreCase : Bool
  attrs : List (String × Value)
  seasons : List SeasonSnap
deriving DecidableEq, Repr

def persistEpisode (e : Episode) : EpisodeSnap :=
  { number := e.episodeNumber, ignoreCase := e.bag.ignoreCase, attrs := e.bag.entries }

def restoreEpisode (p : EpisodeSnap) : Episode :=
  { episodeNumber := p.number, bag := { ignoreCase := p.ignoreCase, entries := p.attrs } }

def persistSeason (s : Season) : SeasonSnap :=
  { number := s.seasonNumber, ignoreCase := s.bag.ignoreCase,
    attrs := s.bag.entries, episodes := s.episodes.map persistEpisode }

def restoreSeason (p : SeasonSnap) : Season :=
  { seasonNumber := p.number, bag := { ignoreCase := p.ignoreCase, entries := p.attrs },
    episodes := p.episodes.map restoreEpisode }

/-- Modelled from the spec: persisting a Show to an opaque snapshot of
name/value pairs and tree shape (§9). -/
def persistShow (S : Show) : ShowSnap :=
  { id := S.id, ignoreCase := S.bag.ignoreCase,
    attrs := S.bag.entries, seasons := S.seasons.map persistSeason }

/-- Modelled from the spec: restoring a Show from a snapshot; a pure
function of the snapshot alone, so no network re-fetch is involved. -/
def restoreShow (p : ShowSnap) : Show :=
  { id := p.id, bag := { ignoreCase := p.ignoreCase, entries := p.attrs },
    seasons := p.seasons.map restoreSeason }

/- ===== Lemmas about AttributeBag ===== -/

theorem AttributeBag.get_set_self (b : AttributeBag) (n : String) (v : Value) :
    (b.set n v).get n = some v := by
  simp [AttributeBag.set, AttributeBag.get]

theorem AttributeBag.get_congr_case (b : AttributeBag) (hic : b.ignoreCase = true)
    (a c : String) (h : lowerString a = lowerString c) : b.get a = b.get c := by
  simp [AttributeBag.get, normKey, hic, h]

theorem AttributeBag.get_none_of_not_mem (b : AttributeBag) (hic : b.ignoreCase = false)
    (f : String) (h : ∀ e ∈ b.entries, e.1 ≠ f) : b.get f = none := by
  simp only [AttributeBag.get, normKey, hic, if_neg]
  rw [List.find?_eq_none.mpr]
  · rfl
  · intro e he
    simp [h e he]

theorem mergeAttrs_ignoreCase (attrs : List (String × Value)) :
    ∀ (b : AttributeBag), (mergeAttrs b attrs).ignoreCase = b.ignoreCase := by
  induction attrs with
  | nil => intro b; rfl
  | cons kv rest ih =>
    intro b
    simp only [mergeAttrs, List.foldl_cons]
    exact ih (b.set kv.1 kv.2)

theorem mergeAttrs_append (b : AttributeBag) (l1 l2 : List (String × Value)) :
    mergeAttrs b (l1 ++ l2) = mergeAttrs (mergeAttrs b l1) l2 := by
  simp [mergeAttrs, List.foldl_append]

theorem mergeAttrs_singleton (b : AttributeBag) (f : String) (v : Value) :
    mergeAttrs b [(f, v)] = b.set f v := rfl

/- ===== Lemmas about the ordered Season/Episode tree ===== -/

theorem mem_insertEpisode {x ep : Episode} :
    ∀ {l : List Episode}, x ∈ insertEpisode ep l → x = ep ∨ x ∈ l := by
  intro l
  induction l with
  | nil => intro h; simp [insertEpisode] at h; exact Or.inl h
  | cons e rest ih =>
    intro h
    rw [insertEpisode] at h
    split at h
    · rcases List.mem_cons.mp h with h | h
      · exact Or.inl h
      · exact Or.inr h
    · split at h
      · rcases List.mem_cons.mp h with h | h
        · exact Or.inl h
        · exact Or.inr (List.mem_cons_of_mem _ h)
      · rcases List.mem_cons.mp h with h | h
        · exact Or.inr (h ▸ List.mem_cons_self _ _)
        · rcases ih h with h | h
          · exact Or.inl h
          · exact Or.inr (List.mem_cons_of_mem _ h)

theorem pairwise_insertEpisode {ep : Episode} :
    ∀ {l : List Episode},
      List.Pairwise (fun a b => a.episodeNumber < b.episodeNumber) l →
      List.Pairwise (fun a b => a.episodeNumber < b.episodeNumber) (insertEpisode ep l) := by
  intro l
  induction l with
  | nil => intro _; simp [insertEpisode]
  | cons e rest ih =>
    intro h
    rcases List.pairwise_cons.mp h with ⟨h1, h2⟩
    rw [insertEpisode]
    split
    next hlt =>
      refine List.pairwise_cons.mpr ⟨?_, h⟩
      intro b hb
      rcases List.mem_cons.mp hb with hb | hb
      · exact hb ▸ hlt
      · exact Nat.lt_trans hlt (h1 b hb)
    next hnlt =>
      split
      next heq =>
        refine List.pairwise_cons.mpr ⟨?_, h2⟩
        intro b hb
        exact heq ▸ h1 b hb
      next hne =>
        refine List.pairwise_cons.mpr ⟨?_, ih h2⟩
        intro b hb
        rcases mem_insertEpisode hb with hb | hb
        · subst hb; omega
        · exact h1 b hb

theorem seasonNumber_mem_insertIntoSeasons {ic : Bool} {sn : Nat} {ep : Episode} :
    ∀ {l : List Season} {x : Season}, x ∈ insertIntoSeasons ic sn ep l →
      x.seasonNumber = sn ∨ x.seasonNumber ∈ l.map Season.seasonNumber := by
  intro l
  induction l with
  | nil =>
    intro x h
    simp [insertIntoSeasons] at h
    exact Or.inl (by rw [h])
  | cons s rest ih =>
    intro x h
    rw [insertIntoSeasons] at h
    split at h
    next hlt =>
      rcases List.mem_cons.mp h with h | h
      · exact Or.inl (by rw [h])
      · exact Or.inr (List.mem_map_of_mem Season.seasonNumber h)
    next hnlt =>
      split at h
      next heq =>
        rcases List.mem_cons.mp h with h | h
        · exact Or.inl (by rw [h]; exact heq.symm)
        · exact Or.inr (List.mem_map_of_mem Season.seasonNumber (List.mem_cons_of_mem _ h))
      next hne =>
        rcases List.mem_cons.mp h with h | h
        · exact Or.inr (by rw [h]; exact List.mem_map_of_mem _ (List.mem_cons_self _ _))
        · rcases ih h with h | h
          · exact Or.inl h
          · rcases List.mem_map.mp h with ⟨b, hb, hbx⟩
            exact Or.inr (List.mem_map.mpr ⟨b, List.mem_cons_of_mem _ hb, hbx⟩)

theorem pairwise_insertIntoSeasons {ic : Bool} {sn : Nat} {ep : Episode} :
    ∀ {l : List Season},
      List.Pairwise (fun a b => a.seasonNumber < b.seasonNumber) l →
      List.Pairwise (fun a b => a.seasonNumber < b.seasonNumber)
        (insertIntoSeasons ic sn ep l) := by
  intro l
  induction l with
  | nil => intro _; simp [insertIntoSeasons]
  | cons s rest ih =>
    intro h
    rcases List.pairwise_cons.mp h with ⟨h1, h2⟩
    rw [insertIntoSeasons]
    split
    next hlt =>
      refine List.pairwise_cons.mpr ⟨?_, h⟩
      intro b hb
      rcases List.mem_cons.mp hb with hb | hb
      · rw [hb]; exact hlt
      · exact Nat.lt_trans hlt (h1 b hb)
    next hnlt =>
      split
      next heq =>
        refine List.pairwise_cons.mpr ⟨?_, h2⟩
        intro b hb
        exact h1 b hb
      next hne =>
        refine List.pairwise_cons.mpr ⟨?_, ih h2⟩
        intro b hb
        rcases seasonNumber_mem_insertIntoSeasons hb with hb | hb
        · rw [hb]; omega
        · rcases List.mem_map.mp hb with ⟨c, hc, hcb⟩
          rw [← hcb]
          exact h1 c hc

theorem episodes_sorted_insertIntoSeasons {ic : Bool} {sn : Nat} {ep : Episode} :
    ∀ {l : List Season},
      (∀ s ∈ l, List.Pairwise (fun a b => a.episodeNumber < b.episodeNumber) s.episodes) →
      ∀ s ∈ insertIntoSeasons ic sn ep l,
        List.Pairwise (fun a b => a.episodeNumber < b.episodeNumber) s.episodes := by
  intro l
  induction l with
  | nil =>
    intro _ s hs
    simp [insertIntoSeasons] at hs
    rw [hs]
    simp
  | cons s0 rest ih =>
    intro h s hs
    rw [insertIntoSeasons] at hs
    split at hs
    next hlt =>
      rcases List.mem_cons.mp hs with hs | hs
      · rw [hs]; simp
      · exact h s hs
    next hnlt =>
      split at hs
      next heq =>
        rcases List.mem_cons.mp hs with hs | hs
        · rw [hs]
          exact pairwise_insertEpisode (h s0 (List.mem_cons_self _ _))
        · exact h s (List.mem_cons_of_mem _ hs)
      next hne =>
        rcases List.mem_cons.mp hs with hs | hs
        · rw [hs]; exact h s0 (List.mem_cons_self _ _)
        · exact ih (fun t ht => h t (List.mem_cons_of_mem _ ht)) s hs

theorem buildTree_foldl_invariant (ic : Bool) :
    ∀ (doc : List EpisodeRec) (acc : List Season),
      List.Pairwise (fun a b => a.seasonNumber < b.seasonNumber) acc →
      (∀ s ∈ acc, List.Pairwise (fun a b => a.episodeNumber < b.episodeNumber) s.episodes) →
      List.Pairwise (fun a b => a.seasonNumber < b.seasonNumber)
        (doc.foldl (fun acc r =>
          insertIntoSeasons ic r.seasonNumber
            { episodeNumber := r.episodeNumber, bag := mkBag ic r.attrs } acc) acc) ∧
      (∀ s ∈ doc.foldl (fun acc r =>
          insertIntoSeasons ic r.seasonNumber
            { episodeNumber := r.episodeNumber, bag := mkBag ic r.attrs } acc) acc,
        List.Pairwise (fun a b => a.episodeNumber < b.episodeNumber) s.episodes) := by
  intro doc
  induction doc with
  | nil => intro acc h1 h2; exact ⟨h1, h2⟩
  | cons r rest ih =>
    intro acc h1 h2
    simp only [List.foldl_cons]
    exact ih _ (pairwise_insertIntoSeasons h1) (episodes_sorted_insertIntoSeasons h2)

theorem buildTree_sorted (ic : Bool) (doc : List EpisodeRec) :
    List.Pairwise (fun a b => a.seasonNumber < b.seasonNumber) (buildTree ic doc) ∧
    (∀ s ∈ buildTree ic doc,
      List.Pairwise (fun a b => a.episodeNumber < b.episodeNumber) s.episodes) :=
  buildTree_foldl_invariant ic doc [] (by simp) (by simp)

/- ===== Executable order and distinctness checks ===== -/

/-- A Season list is in strictly ascending season-number order. -/
def seasonsAscending : List Season → Bool
  | a :: b :: rest =>
    decide (a.seasonNumber < b.seasonNumber) && seasonsAscending (b :: rest)
  | _ => true

/-- An Episode list is in strictly ascending episode-number order. -/
def episodesAscending : List Episode → Bool
  | a :: b :: rest =>
    decide (a.episodeNumber < b.episodeNumber) && episodesAscending (b :: rest)
  | _ => true

/-- No number occurs twice in the list. -/
def distinctNats : List Nat → Bool
  | [] => true
  | a :: rest => rest.all (fun b => decide (b ≠ a)) && distinctNats rest

theorem seasonsAscending_of_pairwise :
    ∀ {l : List Season},
      List.Pairwise (fun a b => a.seasonNumber < b.seasonNumber) l →
      seasonsAscending l = true
  | [], _ => rfl
  | [_], _ => rfl
  | a :: b :: rest, h => by
    rw [seasonsAscending]
    rcases List.pairwise_cons.mp h with ⟨h1, h2⟩
    simp [h1 b (List.mem_cons_self _ _), seasonsAscending_of_pairwise h2]

theorem episodesAscending_of_pairwise :
    ∀ {l : List Episode},
      List.Pairwise (fun a b => a.episodeNumber < b.episodeNumber) l →
      episodesAscending l = true
  | [], _ => rfl
  | [_], _ => rfl
  | a :: b :: rest, h => by
    rw [episodesAscending]
    rcases List.pairwise_cons.mp h with ⟨h1, h2⟩
    simp [h1 b (List.mem_cons_self _ _), episodesAscending_of_pairwise h2]

theorem distinctNats_of_pairwise :
    ∀ {l : List Nat}, List.Pairwise (· < ·) l → distinctNats l = true
  | [], _ => rfl
  | a :: rest, h => by
    rw [distinctNats]
    rcases List.pairwise_cons.mp h with ⟨h1, h2⟩
    have hall : rest.all (fun b => decide (b ≠ a)) = true :=
      List.all_eq_true.mpr (fun b hb => decide_eq_true (Ne.symm (Nat.ne_of_lt (h1 b hb))))
    rw [hall, distinctNats_of_pairwise h2]
    rfl

/- ===== Sample entities used by the witnesses ===== -/

def sampleShow : Show :=
  { id := 79168,
    bag := { ignoreCase := false, entries := [("SeriesName", Value.vStr "Friends")] },
    seasons := [] }

def sampleSeason : Season :=
  { seasonNumber := 1,
    bag := { ignoreCase := false, entries := [] },
    episodes := [] }

def sampleEpisode : Episode :=
  { episodeNumber := 2,
    bag := { ignoreCase := false, entries := [("EpisodeName", Value.vStr "Pilot")] } }

/-- A small "series all data" document whose episodes arrive out of order
and contain a duplicated (season, episode) identity. -/
def sampleDoc : List EpisodeRec :=
  [ { seasonNumber := 2, episodeNumber := 1, attrs := [("id", Value.vInt 5)] },
    { seasonNumber := 1, episodeNumber := 2, attrs := [("id", Value.vInt 2)] },
    { seasonNumber := 1, episodeNumber := 1, attrs := [("id", Value.vInt 1)] },
    { seasonNumber := 1, episodeNumber := 2, attrs := [("id", Value.vInt 7)] },
    { seasonNumber := 0, episodeNumber := 1, attrs := [("id", Value.vInt 9)] } ]

def sampleResult : SearchResult := { search := "dexter", shows := [sampleShow] }

def sampleApi : TVDB := { apiKey := "B43FF87DE395DF56", ignoreCase := false }

def caseBagI : AttributeBag :=
  { ignoreCase := true, entries := [("IMDB_ID", Value.vStr "tt0108778")] }

def caseBagS : AttributeBag :=
  { ignoreCase := false, entries := [("IMDB_ID", Value.vStr "tt0108778")] }

/- ===== Claim theorems ===== -/

/-- C1: for every entity (Show, Season or Episode) and a field `f` not in
its hydrated attribute set, `get_attribute` fails with the typed attribute
error (`TVDBAttributeError`) naming the entity kind and `f`; after `f` has
been hydrated — for the Show by an `update()` whose document carries `f`,
for the others by direct hydration — the same access returns the mapped
value. -/
theorem attribute_miss_then_hydrated (S : Show) (sea : Season) (ep : Episode)
    (f : String) (v : Value) (pre : List (String × Value)) (doc : List EpisodeRec)
    (hS : S.bag.get f = none) (hsea : sea.bag.get f = none) (hep : ep.bag.get f = none) :
    S.get_attribute f = Except.error (TVDBError.attributeError "Show" f) ∧
    (S.update (pre ++ [(f, v)]) doc).get_attribute f = Except.ok v ∧
    sea.get_attribute f = Except.error (TVDBError.attributeError "Season" f) ∧
    (sea.hydrate f v).get_attribute f = Except.ok v ∧
    ep.get_attribute f = Except.error (TVDBError.attributeError "Episode" f) ∧
    (ep.hydrate f v).get_attribute f = Except.ok v := by
  refine ⟨?_, ?_, ?_, ?_, ?_, ?_⟩
  · simp [Show.get_attribute, AttributeBag.get_attribute, hS]
  · show AttributeBag.get_attribute (mergeAttrs S.bag (pre ++ [(f, v)])) "Show" f = Except.ok v
    rw [mergeAttrs_append, mergeAttrs_singleton]
    simp [AttributeBag.get_attribute, AttributeBag.get_set_self]
  · simp [Season.get_attribute, AttributeBag.get_attribute, hsea]
  · simp [Season.hydrate, Season.get_attribute, AttributeBag.get_attribute,
      AttributeBag.get_set_self]
  · simp [Episode.get_attribute, AttributeBag.get_attribute, hep]
  · simp [Episode.hydrate, Episode.get_attribute, AttributeBag.get_attribute,
      AttributeBag.get_set_self]

/-- Witness for C1 at a concrete Show: `Genre` is absent before `update()`
and mapped to `["Comedy"]` after. -/
theorem attribute_miss_then_hydrated_witness :
    sampleShow.get_attribute "Genre" =
      Except.error (TVDBError.attributeError "Show" "Genre") ∧
    (sampleShow.update [("Genre", Value.vList ["Comedy"])] sampleDoc).get_attribute "Genre" =
      Except.ok (Value.vList ["Comedy"]) :=
  ⟨(attribute_miss_then_hydrated sampleShow sampleSeason sampleEpisode "Genre"
      (Value.vList ["Comedy"]) [] sampleDoc (by decide) (by decide) (by decide)).1,
   (attribute_miss_then_hydrated sampleShow sampleSeason sampleEpisode "Genre"
      (Value.vList ["Comedy"]) [] sampleDoc (by decide) (by decide) (by decide)).2.1⟩

/-- C2: after `update()`, a Show's Seasons are in strictly ascending
season-number order and every Season's Episodes are in strictly ascending
episode-number order, whatever the arrival order in the source document
(`doc` is universally quantified); iteration is over these pure lists, so
re-iterating yields the same order. -/
theorem show_iteration_sorted (S : Show) (attrs : List (String × Value))
    (doc : List EpisodeRec) :
    seasonsAscending (S.update attrs doc).seasons = true ∧
    ((S.update attrs doc).seasons.all (fun s => episodesAscending s.episodes)) = true := by
  have h := buildTree_sorted S.bag.ignoreCase doc
  exact ⟨seasonsAscending_of_pairwise h.1,
         List.all_eq_true.mpr (fun s hs => episodesAscending_of_pairwise (h.2 s hs))⟩

/-- C3: re-running `update()` on an already updated Show yields an equal
Season/Episode tree, and the tree never contains a duplicated
(season_number, episode_number) identity — season numbers are pairwise
distinct and episode numbers are pairwise distinct within each season,
for every document, hence also at every intermediate insertion step (each
intermediate tree is `buildTree` of a document prefix). -/
theorem update_idempotent_tree (S : Show) (attrs : List (String × Value))
    (doc : List EpisodeRec) :
    ((S.update attrs doc).update attrs doc).seasons = (S.update attrs doc).seasons ∧
    distinctNats ((S.update attrs doc).seasons.map Season.seasonNumber) = true ∧
    ((S.update attrs doc).seasons.all
      (fun s => distinctNats (s.episodes.map Episode.episodeNumber))) = true := by
  have h := buildTree_sorted S.bag.ignoreCase doc
  refine ⟨?_, ?_, ?_⟩
  · show buildTree (mergeAttrs S.bag attrs).ignoreCase doc = buildTree S.bag.ignoreCase doc
    rw [mergeAttrs_ignoreCase]
  · exact distinctNats_of_pairwise (List.pairwise_map.mpr h.1)
  · exact List.all_eq_true.mpr
      (fun s hs => distinctNats_of_pairwise (List.pairwise_map.mpr (h.2 s hs)))

/-- C5: on an entity bag built with `ignore_case=true`, two spellings of a
hydrated field that differ only in letter case return the same value; on a
bag built with `ignore_case=false`, an access that matches no canonical
name exactly fails with the typed attribute error. -/
theorem ignore_case_lookup (bagI bagS : AttributeBag) (kind a b f : String) (v : Value)
    (hI : bagI.ignoreCase = true) (hab : lowerString a = lowerString b) (hv : bagI.get a = some v)
    (hS : bagS.ignoreCase = false) (hf : ∀ e ∈ bagS.entries, e.1 ≠ f) :
    bagI.get_attribute kind a = Except.ok v ∧
    bagI.get_attribute kind b = Except.ok v ∧
    bagS.get_attribute kind f = Except.error (TVDBError.attributeError kind f) := by
  have hvb : bagI.get b = some v := by
    rw [← AttributeBag.get_congr_case bagI hI a b hab]
    exact hv
  refine ⟨?_, ?_, ?_⟩
  · simp [AttributeBag.get_attribute, hv]
  · simp [AttributeBag.get_attribute, hvb]
  · simp [AttributeBag.get_attribute, AttributeBag.get_none_of_not_mem bagS hS f hf]

/-- Witness for C5: `IMDB_ID` and `imdb_id` agree on a case-insensitive
bag; `ImDB_id` fails on a case-sensitive bag holding `IMDB_ID`. -/
theorem ignore_case_lookup_witness :
    caseBagI.get_attribute "Show" "IMDB_ID" = Except.ok (Value.vStr "tt0108778") ∧
    caseBagI.get_attribute "Show" "imdb_id" = Except.ok (Value.vStr "tt0108778") ∧
    caseBagS.get_attribute "Show" "ImDB_id" =
      Except.error (TVDBError.attributeError "Show" "ImDB_id") :=
  ignore_case_lookup caseBagI caseBagS "Show" "IMDB_ID" "imdb_id" "ImDB_id"
    (Value.vStr "tt0108778") rfl (by decide) (by decide) rfl (by decide)

theorem int_index_invalid {i : Int} {n : Nat} (h : i < 0 ∨ (n : Int) ≤ i) :
    ¬ (0 ≤ i ∧ i.toNat < n) := by
  rintro ⟨h0, hlt⟩
  rcases h with h | h <;> omega

/-- C4: for each indexable collection — a Show indexed by season, a Season
indexed by episode, a SearchResult indexed by position — a non-integer
subscript or an integer outside the valid range of the ordered child
collection fails with the typed index error (`TVDBIndexError`); the result
is exactly that error, never a default, `None`, or a clamped element. -/
theorem invalid_index_fails (S : Show) (sea : Season) (r : SearchResult)
    (i : Int) (t : String)
    (hS : i < 0 ∨ (S.seasons.length : Int) ≤ i)
    (hE : i < 0 ∨ (sea.episodes.length : Int) ≤ i)
    (hR : i < 0 ∨ (r.shows.length : Int) ≤ i) :
    S.getitem (PyKey.int i) = Except.error (TVDBError.indexError (toString i)) ∧
    S.getitem (PyKey.str t) = Except.error (TVDBError.indexError t) ∧
    sea.getitem (PyKey.int i) = Except.error (TVDBError.indexError (toString i)) ∧
    sea.getitem (PyKey.str t) = Except.error (TVDBError.indexError t) ∧
    r.getitem (PyKey.int i) = Except.error (TVDBError.indexError (toString i)) ∧
    r.getitem (PyKey.str t) = Except.error (TVDBError.indexError t) := by
  refine ⟨?_, rfl, ?_, rfl, ?_, rfl⟩
  · simp only [Show.getitem]
    rw [dif_neg (int_index_invalid hS)]
  · simp only [Season.getitem]
    rw [dif_neg (int_index_invalid hE)]
  · simp only [SearchResult.getitem]
    rw [dif_neg (int_index_invalid hR)]

/-- Witness for C4 at the sample collections with index 12 and subscript
`"hello"` (the indexes the tests probe). -/
theorem invalid_index_fails_witness :
    sampleShow.getitem (PyKey.int 12) =
      Except.error (TVDBError.indexError (toString (12 : Int))) ∧
    sampleShow.getitem (PyKey.str "hello") =
      Except.error (TVDBError.indexError "hello") ∧
    sampleSeason.getitem (PyKey.int 12) =
      Except.error (TVDBError.indexError (toString (12 : Int))) ∧
    sampleResult.getitem (PyKey.int 12) =
      Except.error (TVDBError.indexError (toString (12 : Int))) := by
  have h := invalid_index_fails sampleShow sampleSeason sampleResult 12 "hello"
    (Or.inr (by decide)) (Or.inr (by decide)) (Or.inr (by decide))
  exact ⟨h.1, h.2.1, h.2.2.1, h.2.2.2.2.1⟩

/-- C6: `search`, `get` and `get_episode` with a language code outside the
fixed recognized set (the empty string included) fail with the typed value
error carrying the offending code, and the list of fetched URLs is empty —
no network call is made. -/
theorem invalid_language_rejected (api : TVDB) (name lang : String)
    (showId epId : PyKey)
    (netS : String → List SeriesRecord) (netE : String → List EpisodeRec)
    (h : recognizedLanguages.contains lang = false) :
    api.search name lang netS = (Except.error (TVDBError.valueError lang), []) ∧
    api.get showId lang netS = (Except.error (TVDBError.valueError lang), []) ∧
    api.get_episode epId lang netE = (Except.error (TVDBError.valueError lang), []) := by
  have hmem : ¬ lang ∈ recognizedLanguages := by simpa using h
  refine ⟨?_, ?_, ?_⟩ <;> simp [TVDB.search, TVDB.get, TVDB.get_episode, hmem]

/-- Witness for C6 with the empty language code, which the tests require to
be rejected. -/
theorem invalid_language_rejected_witness :
    sampleApi.search "dexter" "" (fun _ => []) =
      (Except.error (TVDBError.valueError ""), []) ∧
    sampleApi.get (PyKey.int 79349) "" (fun _ => []) =
      (Except.error (TVDBError.valueError ""), []) ∧
    sampleApi.get_episode (PyKey.int 308834) "" (fun _ => []) =
      (Except.error (TVDBError.valueError ""), []) :=
  invalid_language_rejected sampleApi "dexter" "" (PyKey.int 79349) (PyKey.int 308834)
    (fun _ => []) (fun _ => []) (by decide)

theorem restoreEpisode_persistEpisode (e : Episode) :
    restoreEpisode (persistEpisode e) = e := rfl

theorem map_restore_persist_episode (l : List Episode) :
    l.map (restoreEpisode ∘ persistEpisode) = l := by
  induction l with
  | nil => rfl
  | cons e rest ih =>
    simp [List.map_cons, Function.comp, ih, restoreEpisode_persistEpisode]

theorem restoreSeason_persistSeason (s : Season) :
    restoreSeason (persistSeason s) = s := by
  rcases s with ⟨n, ⟨ic, en⟩, eps⟩
  simp [persistSeason, restoreSeason, List.map_map, map_restore_persist_episode]

theorem map_restore_persist_season (l : List Season) :
    l.map (restoreSeason ∘ persistSeason) = l := by
  induction l with
  | nil => rfl
  | cons s rest ih =>
    simp [List.map_cons, Function.comp, ih, restoreSeason_persistSeason]

/-- C7: restoring a Show from its persisted snapshot reproduces the Show
exactly — every attribute value, the `ignore_case` flag and the whole
Season/Episode tree — and `restoreShow` is a pure function of the snapshot,
so no network re-fetch is involved.  It holds for every Show, in particular
for a fully-updated one. -/
theorem restore_persist_roundtrip (S : Show) : restoreShow (persistShow S) = S := by
  rcases S with ⟨i, ⟨ic, en⟩, seas⟩
  simp [persistShow, restoreShow, List.map_map, map_restore_persist_season]

/-- C8 counterexample: the claim says `Loader.load` returns the content of
the URL as bytes on success, but `load` (loader.py lines 58-61) decodes a
bytes payload with utf-8 and returns the resulting string.  At a transport
that answers with the bytes payload `<data/>`, `load` succeeds with a
string, not bytes. -/
theorem load_bytes_counterexample :
    Loader.load (fun _ _ => HttpOutcome.ok (HttpContent.rawBytes "<data/>"))
        "http://example.com" true = LoadResult.ok (HttpContent.text "<data/>") ∧
    LoadResult.returnsBytes
      (Loader.load (fun _ _ => HttpOutcome.ok (HttpContent.rawBytes "<data/>"))
        "http://example.com" true) = false :=
  ⟨rfl, rfl⟩

/-- C8 (amended): `Loader.load(url, cache)` returns the content of the URL
as a string — a `str` payload unchanged, a bytes payload decoded as
utf-8 — and fails with `ConnectionError` naming the URL when the transport
raises `RelativeURIError` (malformed URL) or `ServerNotFoundError`
(unreachable host). -/
theorem load_text_or_connection_error
    (reqOk reqErr : String → List (String × String) → HttpOutcome)
    (url : String) (cache : Bool) (content : HttpContent)
    (hok : reqOk url (loadHeaders cache) = HttpOutcome.ok content)
    (herr : reqErr url (loadHeaders cache) = HttpOutcome.relativeURIError ∨
            reqErr url (loadHeaders cache) = HttpOutcome.serverNotFoundError) :
    Loader.load reqOk url cache = LoadResult.ok (HttpContent.text content.asText) ∧
    Loader.load reqErr url cache =
      LoadResult.connectionError ("Unable to connect to " ++ url) := by
  constructor
  · unfold Loader.load
    rw [hok]
    cases content <;> rfl
  · rcases herr with h | h <;> (unfold Loader.load; rw [h])

/-- Witness for C8 (amended): a transport answering bytes, and one raising
`ServerNotFoundError`. -/
theorem load_text_or_connection_error_witness :
    Loader.load (fun _ _ => HttpOutcome.ok (HttpContent.rawBytes "abc"))
        "http://u" true = LoadResult.ok (HttpContent.text "abc") ∧
    Loader.load (fun _ _ => HttpOutcome.serverNotFoundError) "http://u" true =
      LoadResult.connectionError ("Unable to connect to " ++ "http://u") :=
  load_text_or_connection_error
    (fun _ _ => HttpOutcome.ok (HttpContent.rawBytes "abc"))
    (fun _ _ => HttpOutcome.serverNotFoundError) "http://u" true
    (HttpContent.rawBytes "abc") rfl (Or.inr rfl)

/-- C9: every error the library raises — every `TVDBError` value, whose
classes are exactly BadData, ConnectionError, TVDBAttributeError,
TVDBIndexError, TVDBValueError, TVDBIdError, TVDBNotFoundError — is a
specialization of the single base class `PytvdbapiError`, so an `except
PytvdbapiError` handler catches all of them. -/
theorem library_errors_specialize_base :
    (∀ e : TVDBError, catches PyClass.PytvdbapiError e.pyClass = true) ∧
    libraryErrorClasses.all (fun c => catches PyClass.PytvdbapiError c) = true := by
  constructor
  · intro e
    cases e <;> rfl
  · rfl

/-- Python's two-argument `getattr(obj, name, default)`: the default is
substituted exactly when the raised exception is (a subclass of) the
builtin `AttributeError`; any other exception propagates. -/
def getattrOrDefault (result : Except TVDBError Value) (deflt : Value) :
    Except PyClass Value :=
  match result with
  | .ok v => .ok v
  | .error e =>
    if catches PyClass.AttributeError e.pyClass then .ok deflt
    else .error e.pyClass

/-- C10: `TVDBAttributeError` subclasses the builtin `AttributeError`
(error.py line 60), so a failed entity attribute access behaves as an
ordinary missing attribute under Python's attribute protocols:
`getattr` with a default returns the default instead of propagating a
library error. -/
theorem tvdb_attribute_error_is_builtin (S : Show) (f : String) (d : Value)
    (h : S.bag.get f = none) :
    issubclass PyClass.TVDBAttributeError PyClass.AttributeError = true ∧
    getattrOrDefault (S.get_attribute f) d = Except.ok d := by
  constructor
  · rfl
  · have hmiss : S.get_attribute f = Except.error (TVDBError.attributeError "Show" f) := by
      simp [Show.get_attribute, AttributeBag.get_attribute, h]
    rw [hmiss]
    rfl

/-- Witness for C10: `getattr(show, "foo", default)` on the sample Show
yields the default. -/
theorem tvdb_attribute_error_is_builtin_witness :
    issubclass PyClass.TVDBAttributeError PyClass.AttributeError = true ∧
    getattrOrDefault (sampleShow.get_attribute "foo") (Value.vStr "fallback") =
      Except.ok (Value.vStr "fallback") :=
  tvdb_attribute_error_is_builtin sampleShow "foo" (Value.vStr "fallback") (by decide)
